import Mathlib

/-!
Verification development for the QSR World Model planning backend
(`src/be/qsr-be`).  The Python sources are shallowly embedded: pure
functions become Lean functions, exceptions become `Except`, float
arithmetic on the small retry-delay constants becomes exact `ℚ`
arithmetic, pydantic validation becomes explicit `validate`
constructors, and each external-service call becomes an oracle value
`Except PyExc α` describing that call's outcome.
-/

namespace QSR

/-- A Python exception, identified by its `str(e)` message. -/
structure PyExc where
  msg : String
deriving DecidableEq, Repr

/-- The character list `sub` is a contiguous prefix of `hay`. -/
def charsPre : List Char → List Char → Bool
  | _, [] => true
  | [], _ :: _ => false
  | c :: cs, d :: ds => c == d && charsPre cs ds

/-- The character list `sub` occurs contiguously inside the second list. -/
def charsSub (sub : List Char) : List Char → Bool
  | [] => charsPre [] sub
  | c :: t => charsPre (c :: t) sub || charsSub sub t

/-- Python's substring test `sub in hay` on strings. -/
def strHasSub (hay sub : String) : Bool :=
  charsSub sub.toList hay.toList

/-- ASCII lowercasing of one character. -/
def lowerChar (c : Char) : Char :=
  if 'A' ≤ c && c ≤ 'Z' then Char.ofNat (c.toNat + 32) else c

/-- Python's `str.lower()` on the ASCII exception messages involved. -/
def strLower (s : String) : String :=
  ⟨s.toList.map lowerChar⟩

/-! ## Resilience wrapper (`src/utils/llm_utils.py`)

`retry_llm_call(max_retries=2, initial_delay=2.0, backoff_factor=2.0)`
wraps a unit of work.  The wrapped work is modelled as a stream
`f : ℕ → Except PyExc α` giving the outcome of each successive call.
-/

/-- `"429" in error_str or "resource exhausted" in error_str or "quota" in
error_str or "too many requests" in error_str` (llm_utils.py line 36). -/
def isRateLimited (s : String) : Bool :=
  strHasSub s "429" || strHasSub s "resource exhausted" ||
    strHasSub s "quota" || strHasSub s "too many requests"

/-- `"503" in error_str or "service unavailable" in error_str`
(llm_utils.py line 42). -/
def isSvcUnavailable (s : String) : Bool :=
  strHasSub s "503" || strHasSub s "service unavailable"

/-- The final classification after the retry loop (llm_utils.py line 50)
checks only `"429"` and `"resource exhausted"`. -/
def isFinalQuota (s : String) : Bool :=
  strHasSub s "429" || strHasSub s "resource exhausted"

/-- Outcome of a wrapped call: the work's value, a re-raised
non-transient exception, a final `LLMQuotaError`, a final
`LLMServiceError`, or Python's unbound-name failure when the
retry loop body never ran (`max_retries = 0`). -/
inductive RetryResult (α : Type)
  | ok (a : α)
  | raised (e : PyExc)
  | quotaEx
  | svcEx
  | nameErr
deriving DecidableEq, Repr

/-- Observable trace of one wrapped call: the sleep durations issued by
`time.sleep`, the number of invocations of the work, and the outcome. -/
structure RetryTrace (α : Type) where
  sleeps : List ℚ
  calls : ℕ
  result : RetryResult α
deriving DecidableEq, Repr

/-- The code after the `for` loop (llm_utils.py lines 49-52):
`error_str` holds the lowercased message of the last exception, or is
unbound when the loop body never ran. -/
def finalRaise (α : Type) (lastStr : Option String) : RetryResult α :=
  match lastStr with
  | none => .nameErr
  | some s => if isFinalQuota s then .quotaEx else .svcEx

/-- The `for attempt in range(max_retries)` loop of `retry_llm_call`
(llm_utils.py lines 31-47): try the work; on success return; on a
rate-limit-class message sleep, multiply the delay, cap it at 60; on a
service-unavailable-class message sleep and multiply without cap;
otherwise re-raise.  `remaining` is the number of loop iterations left. -/
def retryAux {α : Type} (factor : ℚ) :
    ℕ → (ℕ → Except PyExc α) → ℚ → Option String → RetryTrace α
  | 0, _, _, lastStr => ⟨[], 0, finalRaise α lastStr⟩
  | Nat.succ n, f, delay, _ =>
    match f 0 with
    | .ok a => ⟨[], 1, .ok a⟩
    | .error e =>
      let s := strLower e.msg
      if isRateLimited s then
        let r := retryAux factor n (fun i => f (i + 1)) (min (delay * factor) 60) (some s)
        ⟨delay :: r.sleeps, r.calls + 1, r.result⟩
      else if isSvcUnavailable s then
        let r := retryAux factor n (fun i => f (i + 1)) (delay * factor) (some s)
        ⟨delay :: r.sleeps, r.calls + 1, r.result⟩
      else ⟨[], 1, .raised e⟩

/-- `retry_llm_call(max_retries, initial_delay, backoff_factor)` applied
to the work `f` (llm_utils.py lines 22-55).  Defaults: `2, 2.0, 2.0`. -/
def retry_llm_call {α : Type} (maxRetries : ℕ) (initialDelay backoffFactor : ℚ)
    (f : ℕ → Except PyExc α) : RetryTrace α :=
  retryAux backoffFactor maxRetries f initialDelay none

/-! ## Data model (`src/models/schemas.py`) -/

/-- `ShiftType` (schemas.py lines 10-13). -/
inductive ShiftType | breakfast | lunch | dinner
deriving DecidableEq, Repr

/-- `WeatherType` (schemas.py lines 15-19). -/
inductive WeatherType | sunny | cloudy | rainy | stormy
deriving DecidableEq, Repr

/-- `RiskLevel` (schemas.py lines 21-26). -/
inductive RiskLevel | very_low | low | medium | high | very_high
deriving DecidableEq, Repr

/-- `RestaurantConfig` (schemas.py lines 30-37). -/
structure RestaurantConfig where
  location : String
  has_drive_thru : Bool
  drive_thru_lanes : Option Int
  kitchen_staff_capacity : String
  dine_in : Bool
  dine_in_seat_capacity : Option Int
deriving DecidableEq, Repr

/-- The `valid_days` list of `Scenario.validate_day` (schemas.py line 50). -/
def valid_days : List String :=
  ["monday", "tuesday", "wednesday", "thursday", "friday", "saturday", "sunday"]

/-- `Scenario` (schemas.py lines 39-53); the calendar date is opaque. -/
structure Scenario where
  shift : ShiftType
  date : String
  day_of_week : String
  weather : WeatherType
  special_events : List String
  restaurant : RestaurantConfig
deriving DecidableEq, Repr

/-- The pydantic validator `validate_day` (schemas.py lines 48-53):
reject when `v.lower()` is not a valid day, otherwise store `v.lower()`. -/
def validate_day (v : String) : Except PyExc String :=
  if valid_days.contains (strLower v) then .ok (strLower v)
  else .error ⟨"valueerror: day_of_week must be one of the seven day names"⟩

/-- Pydantic construction of a `Scenario`, running `validate_day` on the
`day_of_week` input; the enum-typed fields are validated by typing. -/
def Scenario.validate (shift : ShiftType) (date : String) (day_of_week : String)
    (weather : WeatherType) (special_events : List String)
    (restaurant : RestaurantConfig) : Except PyExc Scenario := do
  let d ← validate_day day_of_week
  .ok ⟨shift, date, d, weather, special_events, restaurant⟩

/-- `Constraints` (schemas.py lines 55-62). -/
structure Constraints where
  available_staff : Int
  min_staff_per_station : List (String × Int)
deriving DecidableEq, Repr

/-- `AlignmentTargets` (schemas.py lines 64-68) — the data model's only
alignment type; there is no `AlignmentWeights` in schemas.py. -/
structure AlignmentTargets where
  target_labor_cost_percent : ℚ
  target_wait_time_seconds : Int
  target_staff_utilization : ℚ
deriving DecidableEq, Repr

/-- `Staffing` (schemas.py lines 72-81). -/
structure Staffing where
  drive_thru : Int
  kitchen : Int
  front_counter : Int
  total : Int
deriving DecidableEq, Repr

/-- Pydantic construction of `Staffing`: the three station counts carry
`ge=0` bounds, and the always-run validator `calculate_total`
(schemas.py lines 79-81) replaces the supplied `total` input — which is
therefore unused below — with the sum of the station counts. -/
def Staffing.validate (drive_thru kitchen front_counter total : Int) :
    Except PyExc Staffing :=
  if drive_thru < 0 then .error ⟨"validationerror: drive_thru must be >= 0"⟩
  else if kitchen < 0 then .error ⟨"validationerror: kitchen must be >= 0"⟩
  else if front_counter < 0 then .error ⟨"validationerror: front_counter must be >= 0"⟩
  else .ok ⟨drive_thru, kitchen, front_counter, drive_thru + kitchen + front_counter⟩

/-- `StaffingPlan` (schemas.py lines 83-93). -/
structure StaffingPlan where
  id : String
  strategy : String
  estimated_total_guest : Int
  estimated_peak_guest : Int
  staffing : Staffing
  estimated_labor_cost : ℚ
  risk_level : RiskLevel
  rationale : String
  reasoning : Option String
deriving DecidableEq, Repr

/-- `PredictedMetrics` (schemas.py lines 95-105). -/
structure PredictedMetrics where
  customers_served : Int
  revenue : ℚ
  avg_wait_time_seconds : Int
  peak_wait_time_seconds : Option Int
  max_queue_length : Int
  labor_cost : ℚ
  food_cost : ℚ
  staff_utilization : ℚ
  order_accuracy : ℚ
deriving DecidableEq, Repr

/-- `SimulationResult` (schemas.py lines 107-113). -/
structure SimulationResult where
  predicted_metrics : PredictedMetrics
  key_events : List String
  bottlenecks : List String
  confidence : ℚ
  reasoning : Option String
deriving DecidableEq, Repr

/-- `ScoreDetails` (schemas.py lines 115-120). -/
structure ScoreDetails where
  raw_score : ℚ
  deviation : ℚ
  weighted : ℚ
  details : List (String × String)
deriving DecidableEq, Repr

/-- The raw per-objective dictionary the scorer's external output
supplies for one objective, fed to `ScoreDetails(**...)`. -/
structure RawDetails where
  raw_score : ℚ
  deviation : ℚ
  weighted : ℚ
  details : List (String × String)
deriving DecidableEq, Repr

/-- Pydantic construction of `ScoreDetails`: `raw_score` carries
`ge=0, le=1` bounds (schemas.py line 117). -/
def ScoreDetails.validate (r : RawDetails) : Except PyExc ScoreDetails :=
  if r.raw_score < 0 then .error ⟨"validationerror: raw_score must be >= 0"⟩
  else if 1 < r.raw_score then .error ⟨"validationerror: raw_score must be <= 1"⟩
  else .ok ⟨r.raw_score, r.deviation, r.weighted, r.details⟩

/-- `Scores` (schemas.py lines 122-131).  It declares exactly the fields
listed in `scoresFields` below — in particular no `overall_score` and no
aggregate field of any kind. -/
structure Scores where
  profit : ScoreDetails
  customer_satisfaction : ScoreDetails
  staff_wellbeing : ScoreDetails
  ranking : String
  strengths : List String
  weaknesses : List String
  recommendation : String
  reasoning : Option String
deriving DecidableEq, Repr

/-- The attribute names the `Scores` class declares (schemas.py
lines 122-131). -/
def scoresFields : List String :=
  ["profit", "customer_satisfaction", "staff_wellbeing", "ranking", "strengths",
   "weaknesses", "recommendation", "reasoning"]

/-- Python attribute lookup on an object whose class declares `fields`:
`AttributeError` when the name is not among them. -/
def pyGetAttr (fields : List String) (name : String) : Except PyExc Unit :=
  if fields.contains name then .ok ()
  else .error ⟨"attributeerror: no attribute " ++ name⟩

/-- Numeric attribute lookup on a `Scores` object.  None of the fields
the class declares (`scoresFields`) is a numeric attribute — in
particular there is no `overall_score` — so every numeric lookup, such
as `scores.overall_score` at scorer_agent.py line 162 and
orchestrator.py lines 144/151/154/161/174, raises `AttributeError`.
Pydantic models ignore unknown constructor keyword arguments, so passing
`overall_score=...` at construction does not create the attribute. -/
def Scores.numAttr (_s : Scores) (name : String) : Except PyExc ℚ :=
  .error ⟨"attributeerror: Scores object has no attribute " ++ name⟩

/-- `DemandPrediction` (schemas.py lines 143-150). -/
structure DemandPrediction where
  estimated_total_demand : Int
  peak_demand_per_hour : Int
  demand_multiplier : ℚ
  channel_preference : List (String × ℚ)
  context_factors : List String
  reasoning : Option String
deriving DecidableEq, Repr

/-- `CapacityAnalysis` (schemas.py lines 152-157). -/
structure CapacityAnalysis where
  max_throughput_per_hour : Int
  station_capacities : List (String × Int)
  bottleneck_risk_areas : List String
  reasoning : Option String
deriving DecidableEq, Repr

/-- `OptionEvaluation` (schemas.py lines 168-172). -/
structure OptionEvaluation where
  option : StaffingPlan
  simulation : SimulationResult
  scores : Scores
deriving DecidableEq, Repr

/-- `IterationTrace` (schemas.py lines 174-178). -/
structure IterationTrace where
  iteration_number : Int
  evaluations : List OptionEvaluation
  feedback : Option String
deriving DecidableEq, Repr

/-- `PlanningRequest` (schemas.py lines 161-166). -/
structure PlanningRequest where
  scenario : Scenario
  constraints : Option Constraints
  alignment_targets : Option AlignmentTargets
  operator_priority : String
deriving DecidableEq, Repr

/-- The attribute names `PlanningRequest` declares (schemas.py
lines 161-166): note `alignment_targets`, not `alignment_weights`. -/
def planningRequestFields : List String :=
  ["scenario", "constraints", "alignment_targets", "operator_priority"]

/-- `PlanningResponse` (schemas.py lines 180-190); the timestamp is
opaque. -/
structure PlanningResponse where
  request_id : String
  timestamp : String
  scenario : Scenario
  demand_prediction : Option DemandPrediction
  capacity_analysis : Option CapacityAnalysis
  restaurant_operator_plan : Option OptionEvaluation
  shadow_operator_best_plan : Option OptionEvaluation
  iterations : List IterationTrace
  execution_time_seconds : ℚ
deriving DecidableEq, Repr

/-- The attribute names `PlanningResponse` declares (schemas.py
lines 180-190): no `options_evaluated`, no `best_decision`. -/
def planningResponseFields : List String :=
  ["request_id", "timestamp", "scenario", "demand_prediction", "capacity_analysis",
   "restaurant_operator_plan", "shadow_operator_best_plan", "iterations",
   "execution_time_seconds"]

/-- The class names module `src.models.schemas` defines (its complete
top-level definitions). -/
def schemasNames : List String :=
  ["ShiftType", "WeatherType", "RiskLevel", "RestaurantConfig", "Scenario", "Constraints",
   "AlignmentTargets", "Staffing", "StaffingPlan", "PredictedMetrics", "SimulationResult",
   "ScoreDetails", "Scores", "EvaluationResult", "DemandPrediction", "CapacityAnalysis",
   "PlanningRequest", "OptionEvaluation", "IterationTrace", "PlanningResponse",
   "ActualPerformanceData", "EvaluationRequest", "EvaluationResponse"]

/-- Python's `from module import a, b, ...`: fails with `ImportError` at
the first requested name the module does not define. -/
def resolveImports (exports requested : List String) : Except PyExc Unit :=
  match requested.find? (fun n => ! exports.contains n) with
  | some n => .error ⟨"importerror: cannot import name " ++ n⟩
  | none => .ok ()

/-! ## Context analyzers
(`src/agents/world_context_agent.py`, `src/agents/restaurant_agent.py`) -/

/-- The fallback document built in world_context_agent.py lines 70-77. -/
def demandFallback : DemandPrediction :=
  ⟨400, 100, 1, [("drive_thru", 1), ("dine_in", 1), ("delivery", 1)],
   ["Analysis failed, using defaults"], some "Fallback due to error"⟩

/-- `WorldContextAgent.analyze_context` (world_context_agent.py
lines 41-77): the whole body is a `try` returning the parsed external
document, with `except Exception` returning the fallback.  `llm` is the
outcome of the generate-and-parse pipeline inside the `try`. -/
def analyze_context (llm : Except PyExc DemandPrediction) : Except PyExc DemandPrediction :=
  match llm with
  | .ok d => .ok d
  | .error _ => .ok demandFallback

/-- The plain JSON dictionary `RestaurantModelAgent.analyze_capacity`
returns (restaurant_agent.py lines 34-46 give its shape). -/
structure CapacityDict where
  max_throughput_per_hour : Int
  station_capacities : List (String × Int)
  infrastructure_constraints : List String
deriving DecidableEq, Repr

/-- The fallback dictionary built in restaurant_agent.py lines 81-85. -/
def capacityFallback : CapacityDict :=
  ⟨100, [("kitchen", 80), ("drive_thru", 60), ("dine_in", 50)],
   ["Default fallback capacities used"]⟩

/-- `RestaurantModelAgent.analyze_capacity` (restaurant_agent.py
lines 49-85): `try` returning the parsed dictionary, `except Exception`
returning the fallback dictionary. -/
def analyze_capacity (llm : Except PyExc CapacityDict) : Except PyExc CapacityDict :=
  match llm with
  | .ok c => .ok c
  | .error _ => .ok capacityFallback

/-- `RestaurantOperatorAgent.generate_initial_plan` body
(restaurant_operator_agent.py lines 49-92): the `try` block returns
`StaffingPlan.model_validate_json(response.text)` and the
`except Exception` handler logs and re-raises the same exception, so the
call is the identity on the generate-and-parse outcome `llm`. -/
def generate_initial_plan (llm : Except PyExc StaffingPlan) : Except PyExc StaffingPlan :=
  match llm with
  | .ok p => .ok p
  | .error e => .error e

/-! ## Scorer (`src/agents/scorer_agent.py`) -/

/-- The parsed `result_dict` of `ScorerAgent.score_option`
(scorer_agent.py line 147), with the `.get(...)` defaults already
applied for `strengths`, `weaknesses`, `recommendation` and `reasoning`;
`combined_score` keeps its optionality because line 154 applies
`result_dict.get("combined_score", 0.0)`. -/
structure ScorerOutput where
  profit : RawDetails
  customer_satisfaction : RawDetails
  staff_wellbeing : RawDetails
  combined_score : Option ℚ
  ranking : String
  strengths : List String
  weaknesses : List String
  recommendation : String
  reasoning : Option String
deriving DecidableEq, Repr

/-- The value scorer_agent.py line 154 passes as the `overall_score`
keyword argument: `result_dict.get("combined_score", 0.0)` — taken from
the external output, never computed from the three raw scores. -/
def overallScoreArg (out : ScorerOutput) : ℚ := out.combined_score.getD 0

/-- The names scorer_agent.py lines 5-8 import from
`src.models.schemas`. -/
def scorerSchemaImports : List String :=
  ["Scenario", "StaffingPlan", "SimulationResult", "AlignmentWeights", "Scores",
   "ScoreDetails"]

/-- Module-level import of `src.agents.scorer_agent`: it must resolve
`scorerSchemaImports` against the schemas module. -/
def scorerBoot : Except PyExc Unit := resolveImports schemasNames scorerSchemaImports

/-- `ScorerAgent.score_option` (scorer_agent.py lines 99-172), given the
outcome `llm` of the generate-and-parse pipeline: construct the three
`ScoreDetails`, construct `Scores` — pydantic drops the undeclared
`overall_score=result_dict.get("combined_score", 0.0)` keyword — then
line 162 formats `scores.overall_score`, an attribute the class does not
have; the `except Exception` handler re-raises. -/
def score_option (llm : Except PyExc ScorerOutput) : Except PyExc Scores := do
  let out ← llm
  let p ← ScoreDetails.validate out.profit
  let c ← ScoreDetails.validate out.customer_satisfaction
  let s ← ScoreDetails.validate out.staff_wellbeing
  let scores : Scores := ⟨p, c, s, out.ranking, out.strengths, out.weaknesses,
    out.recommendation, out.reasoning⟩
  let _ ← scores.numAttr "overall_score"
  pure scores

/-! ## Orchestrator (`src/coordinator/orchestrator.py`) -/

/-- The names orchestrator.py lines 13-18 import from
`src.models.schemas`. -/
def orchestratorSchemaImports : List String :=
  ["PlanningRequest", "PlanningResponse", "OptionEvaluation", "EvaluationRequest",
   "EvaluationResponse", "Constraints", "AlignmentWeights"]

/-- Module-level import of `src.coordinator.orchestrator`
(orchestrator.py lines 13-18); no call into the module can happen unless
this succeeds. -/
def orchestratorBoot : Except PyExc Unit :=
  resolveImports schemasNames orchestratorSchemaImports

/-- `MAX_ATTEMPTS = 2` (orchestrator.py line 93). -/
def MAX_ATTEMPTS : ℕ := 2

/-- `TARGET_SCORE = 0.95` (orchestrator.py line 94). -/
def TARGET_SCORE : ℚ := 95 / 100

/-- Oracles for the external-service calls `plan_shift` makes: the
demand and capacity analyses, the operator agent's plan list per attempt
(which may also see the feedback string), and the simulator and scorer
outcomes per (attempt, option index). -/
structure Oracles where
  requestId : String
  now : String
  demandLLM : Except PyExc DemandPrediction
  capacityLLM : Except PyExc CapacityDict
  plans : ℕ → Option String → Except PyExc (List StaffingPlan)
  sims : ℕ → ℕ → Except PyExc SimulationResult
  scoreLLM : ℕ → ℕ → Except PyExc ScorerOutput
  execTime : ℚ

/-- Tail of Python's `max(iterable, key=...)`: fold keeping the current
best, replacing it only when a later element's key is strictly greater
(so the earliest maximal element wins ties); key evaluation may raise. -/
def pyMaxAux {β : Type} (key : β → Except PyExc ℚ) :
    β → ℚ → List β → Except PyExc β
  | best, _, [] => .ok best
  | best, bestV, e :: rest => do
      let v ← key e
      if bestV < v then pyMaxAux key e v rest else pyMaxAux key best bestV rest

/-- Python's `max(iterable, key=...)`: `ValueError` on an empty
sequence, otherwise a strictly-greater fold from the first element. -/
def pyMax {β : Type} (key : β → Except PyExc ℚ) : List β → Except PyExc β
  | [] => .error ⟨"valueerror: max() arg is an empty sequence"⟩
  | e :: rest => do
      let v ← key e
      pyMaxAux key e v rest

/-- Feedback synthesis (orchestrator.py lines 161-167), given the score
value read from the best evaluation. -/
def mkFeedback (attempt : ℕ) (score : ℚ) (best : OptionEvaluation) : String :=
  let f0 := "Attempt " ++ toString attempt ++ " result: Score " ++ toString score ++ ". "
  let f1 := if best.simulation.bottlenecks.isEmpty then f0
    else f0 ++ "Bottlenecks identified: " ++
      String.intercalate ", " best.simulation.bottlenecks ++ ". "
  let f2 := if best.scores.weaknesses.isEmpty then f1
    else f1 ++ "Weaknesses: " ++ String.intercalate ", " best.scores.weaknesses ++ ". "
  f2 ++ "Please adjust staffing to address these specific issues."

/-- The `for option in staffing_plan` body (orchestrator.py
lines 114-144): simulate the option, score it, build the
`OptionEvaluation`, then line 144 formats `scores.overall_score`. -/
def evalOptions (o : Oracles) (attempt : ℕ) :
    List StaffingPlan → ℕ → List OptionEvaluation → Except PyExc (List OptionEvaluation)
  | [], _, acc => .ok acc.reverse
  | opt :: rest, i, acc => do
      let sim ← o.sims attempt i
      let scores ← score_option (o.scoreLLM attempt i)
      let ev : OptionEvaluation := ⟨opt, sim, scores⟩
      let _ ← scores.numAttr "overall_score"
      evalOptions o attempt rest (i + 1) (ev :: acc)

/-- The `while attempts < MAX_ATTEMPTS` reasoning loop (orchestrator.py
lines 96-168): generate this attempt's plans, evaluate each, break on an
empty round, pick `best_of_run = max(..., key=scores.overall_score)`,
break when the target score is reached, and otherwise synthesize
feedback (which again reads `scores.overall_score`) for the next round.
`fuel` is `MAX_ATTEMPTS - attempts`. -/
def planningLoop (o : Oracles) :
    ℕ → ℕ → List OptionEvaluation → Option String → Except PyExc (List OptionEvaluation)
  | _, 0, evals, _ => .ok evals
  | attempts, Nat.succ fuel, evals, feedback => do
      let attempt := attempts + 1
      let plans ← o.plans attempt feedback
      let current ← evalOptions o attempt plans 0 []
      let evals2 := evals ++ current
      if current.isEmpty then .ok evals2
      else do
        let best ← pyMax (fun ev => ev.scores.numAttr "overall_score") current
        let bestScore ← best.scores.numAttr "overall_score"
        if TARGET_SCORE ≤ bestScore then .ok evals2
        else if attempt < MAX_ATTEMPTS then do
          let fbScore ← best.scores.numAttr "overall_score"
          planningLoop o attempt fuel evals2 (some (mkFeedback attempt fbScore best))
        else planningLoop o attempt fuel evals2 feedback

/-- `QSROrchestrator.plan_shift` (orchestrator.py lines 44-189), folding
in the module's import statements (lines 13-18), which must succeed
before any call: log `request.alignment_weights` (line 61), default it
again (line 69), run the two context analyzers (lines 74-75), run the
reasoning loop, raise `RuntimeError` when no evaluations were produced
(line 172), pick `best_overall` by `scores.overall_score` (line 174),
and build the `PlanningResponse` — whose undeclared `options_evaluated`
and `best_decision` keyword arguments pydantic drops, every declared
optional field defaulting (`iterations = []`). -/
def plan_shift (req : PlanningRequest) (o : Oracles) : Except PyExc PlanningResponse := do
  orchestratorBoot
  let _ ← pyGetAttr planningRequestFields "alignment_weights"
  let _ ← pyGetAttr planningRequestFields "alignment_weights"
  let _wc ← analyze_context o.demandLLM
  let _rc ← analyze_capacity o.capacityLLM
  let evals ← planningLoop o 0 MAX_ATTEMPTS [] none
  if evals.isEmpty then
    .error ⟨"runtimeerror: No staffing options could be generated across all attempts."⟩
  else do
    let best ← pyMax (fun ev => ev.scores.numAttr "overall_score") evals
    let _ ← best.scores.numAttr "overall_score"
    pure { request_id := o.requestId, timestamp := o.now, scenario := req.scenario,
           demand_prediction := none, capacity_analysis := none,
           restaurant_operator_plan := none, shadow_operator_best_plan := none,
           iterations := [], execution_time_seconds := o.execTime }

/-! ## Concrete inputs used by witnesses and counterexamples -/

/-- A unit of work failing twice with a rate-limit-class message and
then succeeding. -/
def c4QuotaWork : ℕ → Except PyExc ℕ := fun i =>
  if i < 2 then .error ⟨"429 Too Many Requests"⟩ else .ok 7

/-- A unit of work failing six times with a service-unavailable-class
message and then succeeding. -/
def c4SvcWork : ℕ → Except PyExc ℕ := fun i =>
  if i < 6 then .error ⟨"503 Service Unavailable"⟩ else .ok 0

/-- A unit of work always failing with a message that is
rate-limit-class for the retry loop (it contains "quota") but contains
neither "429" nor "resource exhausted". -/
def c5QuotaWork : ℕ → Except PyExc ℕ := fun _ => .error ⟨"Quota limit reached"⟩

/-- A unit of work always failing with a "429" message. -/
def c5Work429 : ℕ → Except PyExc ℕ := fun _ => .error ⟨"429 Too Many Requests"⟩

/-- A structurally-invalid-output failure, as pydantic raises it from
`StaffingPlan.model_validate_json` on malformed generator output. -/
def malformedExc : PyExc := ⟨"1 validation error for StaffingPlan: Invalid JSON"⟩

/-- The end-to-end restaurant configuration of the spec's test scenario. -/
def e2eRestaurant : RestaurantConfig := ⟨"downtown", true, some 2, "medium", true, some 50⟩

/-- The end-to-end scenario: dinner, rainy, friday, friday_rush. -/
def e2eScenario : Scenario :=
  ⟨.dinner, "2025-01-03", "friday", .rainy, ["friday_rush"], e2eRestaurant⟩

/-- The end-to-end constraints: 15 available staff, default minimums. -/
def e2eConstraints : Constraints :=
  ⟨15, [("drive_thru", 2), ("kitchen", 3), ("front_counter", 1)]⟩

/-- The end-to-end planning request. -/
def e2eRequest : PlanningRequest := ⟨e2eScenario, some e2eConstraints, none, "balanced"⟩

/-- A well-formed staffing allocation. -/
def benignStaffing : Staffing := ⟨4, 6, 3, 13⟩

/-- A well-formed staffing plan. -/
def benignPlan : StaffingPlan :=
  ⟨"initial_plan", "Balanced Dinner", 400, 100, benignStaffing, 1200, .medium,
   "balanced allocation", none⟩

/-- Well-formed predicted metrics. -/
def benignMetrics : PredictedMetrics := ⟨380, 5000, 200, some 420, 9, 1200, 1500, 1, 1⟩

/-- A well-formed simulation result. -/
def benignSim : SimulationResult := ⟨benignMetrics, [], ["drive_thru"], 1, none⟩

/-- A well-formed scorer output with all raw scores in range. -/
def benignScorerOut : ScorerOutput :=
  ⟨⟨1, 0, 1, []⟩, ⟨1, 0, 1, []⟩, ⟨1, 0, 1, []⟩, some 1, "excellent", [],
   ["wait time"], "add drive thru staff", none⟩

/-- Oracles on which every external call succeeds with well-formed
output. -/
def benignOracles : Oracles :=
  { requestId := "req-1", now := "t0",
    demandLLM := .ok demandFallback,
    capacityLLM := .ok capacityFallback,
    plans := fun _ _ => .ok [benignPlan],
    sims := fun _ _ => .ok benignSim,
    scoreLLM := fun _ _ => .ok benignScorerOut,
    execTime := 1 }

/-- A scorer external output whose three raw scores are all 0 while its
`combined_score` is 1. -/
def c1ScorerOut : ScorerOutput :=
  ⟨⟨0, 0, 0, []⟩, ⟨0, 0, 0, []⟩, ⟨0, 0, 0, []⟩, some 1, "poor", [], [], "", none⟩

/-- A well-formed `Scores` value (buildable directly, though
`score_option` never returns one). -/
def benignScores : Scores :=
  ⟨⟨1, 0, 1, []⟩, ⟨1, 0, 1, []⟩, ⟨1, 0, 1, []⟩, "excellent", [], [], "keep", none⟩

/-- An evaluation built from the well-formed pieces. -/
def benignEval : OptionEvaluation := ⟨benignPlan, benignSim, benignScores⟩

/-- A second evaluation with the same scores (an aggregate tie). -/
def benignEval2 : OptionEvaluation :=
  ⟨{ benignPlan with id := "optimized_v1" }, benignSim, benignScores⟩

/-! ## Helper lemmas for the resilience wrapper -/

/-- One step of the capped delay recurrence equals a shift of the
closed-form capped delay. -/
lemma minCapShift (d0 fac : ℚ) (i : ℕ) (hf : 1 ≤ fac) :
    min (min (d0 * fac) 60 * fac ^ i) 60 = min (d0 * fac ^ (i + 1)) 60 := by
  rcases le_or_lt (d0 * fac) 60 with h | h
  · rw [min_eq_left h, pow_succ]
    ring_nf
  · rw [min_eq_right h.le]
    have hpow : (1 : ℚ) ≤ fac ^ i := one_le_pow₀ hf
    have h60 : (60 : ℚ) ≤ 60 * fac ^ i := le_mul_of_one_le_right (by norm_num) hpow
    rw [min_eq_right h60]
    have hle : (60 : ℚ) ≤ d0 * fac ^ (i + 1) := by
      have hm : (60 : ℚ) * fac ^ i ≤ (d0 * fac) * fac ^ i :=
        mul_le_mul_of_nonneg_right h.le (by positivity)
      calc (60 : ℚ) ≤ 60 * fac ^ i := h60
        _ ≤ (d0 * fac) * fac ^ i := hm
        _ = d0 * fac ^ (i + 1) := by rw [pow_succ]; ring
    rw [min_eq_right hle]

/-- A work failing `k` times with rate-limit-class messages and then
succeeding: the loop returns the success after `k` capped-backoff
sleeps and `k + 1` invocations. -/
lemma retryAux_quota_ok {α : Type} (fac : ℚ) (hf : 1 ≤ fac) :
    ∀ (k n : ℕ) (f : ℕ → Except PyExc α) (a : α) (d0 : ℚ) (last : Option String),
      k < n → d0 ≤ 60 →
      (∀ i, i < k → ∃ e, f i = .error e ∧ isRateLimited (strLower e.msg) = true) →
      f k = .ok a →
      retryAux fac n f d0 last =
        ⟨(List.range k).map (fun i => min (d0 * fac ^ i) 60), k + 1, .ok a⟩ := by
  intro k
  induction k with
  | zero =>
    intro n f a d0 last hkn hd _hfail hok
    obtain ⟨m, rfl⟩ : ∃ m, n = m + 1 := ⟨n - 1, by omega⟩
    simp [retryAux, hok]
  | succ k ih =>
    intro n f a d0 last hkn hd hfail hok
    obtain ⟨m, rfl⟩ : ∃ m, n = m + 1 := ⟨n - 1, by omega⟩
    obtain ⟨e, he, hcl⟩ := hfail 0 (Nat.succ_pos k)
    have hr := ih m (fun i => f (i + 1)) a (min (d0 * fac) 60) (some (strLower e.msg))
      (by omega) (min_le_right _ _) (fun i hi => hfail (i + 1) (by omega)) hok
    have hfun : (fun i => min (min (d0 * fac) 60 * fac ^ i) 60)
        = ((fun i => min (d0 * fac ^ i) 60) ∘ Nat.succ) :=
      funext fun i => minCapShift d0 fac i hf
    simp only [retryAux, he, hcl, if_true, hr]
    rw [List.range_succ_eq_map, List.map_cons, List.map_map, ← hfun, pow_zero, mul_one,
      min_eq_left hd]

/-- A work failing `k` times with service-unavailable-class messages and
then succeeding: the loop returns the success after `k` uncapped
geometric sleeps and `k + 1` invocations. -/
lemma retryAux_svc_ok {α : Type} (fac : ℚ) :
    ∀ (k n : ℕ) (f : ℕ → Except PyExc α) (a : α) (d0 : ℚ) (last : Option String),
      k < n →
      (∀ i, i < k → ∃ e, f i = .error e ∧ isRateLimited (strLower e.msg) = false ∧
        isSvcUnavailable (strLower e.msg) = true) →
      f k = .ok a →
      retryAux fac n f d0 last =
        ⟨(List.range k).map (fun i => d0 * fac ^ i), k + 1, .ok a⟩ := by
  intro k
  induction k with
  | zero =>
    intro n f a d0 last hkn _hfail hok
    obtain ⟨m, rfl⟩ : ∃ m, n = m + 1 := ⟨n - 1, by omega⟩
    simp [retryAux, hok]
  | succ k ih =>
    intro n f a d0 last hkn hfail hok
    obtain ⟨m, rfl⟩ : ∃ m, n = m + 1 := ⟨n - 1, by omega⟩
    obtain ⟨e, he, hq, hs⟩ := hfail 0 (Nat.succ_pos k)
    have hr := ih m (fun i => f (i + 1)) a (d0 * fac) (some (strLower e.msg))
      (by omega) (fun i hi => hfail (i + 1) (by omega)) hok
    have hfun : (fun i => d0 * fac * fac ^ i)
        = ((fun i => d0 * fac ^ i) ∘ Nat.succ) := by
      funext i
      show d0 * fac * fac ^ i = d0 * fac ^ (i + 1)
      rw [pow_succ]
      ring
    simp only [retryAux, he, hq, hs, if_true, Bool.false_eq_true, if_false, hr]
    rw [List.range_succ_eq_map, List.map_cons, List.map_map, ← hfun, pow_zero, mul_one]

/-- A work failing transiently on every call: the loop invokes it
exactly `n` times and the outcome is the final 429/resource-exhausted
classification of the last message. -/
lemma retryAux_allfail {α : Type} (fac : ℚ) :
    ∀ (n : ℕ) (f : ℕ → Except PyExc α) (d0 : ℚ) (last : Option String) (e : PyExc),
      1 ≤ n →
      (∀ i, i < n → ∃ e', f i = .error e' ∧ (isRateLimited (strLower e'.msg) = true ∨
        isSvcUnavailable (strLower e'.msg) = true)) →
      f (n - 1) = .error e →
      (retryAux fac n f d0 last).calls = n ∧
      (retryAux fac n f d0 last).result =
        (if isFinalQuota (strLower e.msg) then RetryResult.quotaEx else RetryResult.svcEx) := by
  intro n
  induction n with
  | zero => intro f d0 last e h1; omega
  | succ n ih =>
    intro f d0 last e _h1 hfail hlast
    obtain ⟨e', he', hcl⟩ := hfail 0 (Nat.succ_pos n)
    rcases Nat.eq_zero_or_pos n with rfl | hn
    · have heq : e' = e := by
        rw [he'] at hlast
        exact Except.error.inj hlast
      subst heq
      cases hq2 : isRateLimited (strLower e'.msg) with
      | true => simp [retryAux, he', hq2, finalRaise]
      | false =>
        have hsv : isSvcUnavailable (strLower e'.msg) = true := by
          rcases hcl with h | h
          · rw [h] at hq2; cases hq2
          · exact h
        simp [retryAux, he', hq2, hsv, finalRaise]
    · have hsh : (fun i => f (i + 1)) (n - 1) = Except.error e := by
        have hn1 : n - 1 + 1 = n := by omega
        show f (n - 1 + 1) = Except.error e
        rw [hn1]
        simpa using hlast
      have hfail' : ∀ i, i < n → ∃ e', (fun j => f (j + 1)) i = .error e' ∧
          (isRateLimited (strLower e'.msg) = true ∨ isSvcUnavailable (strLower e'.msg) = true) :=
        fun i hi => hfail (i + 1) (by omega)
      cases hq2 : isRateLimited (strLower e'.msg) with
      | true =>
        have hr := ih (fun i => f (i + 1)) (min (d0 * fac) 60) (some (strLower e'.msg)) e hn
          hfail' hsh
        simp only [retryAux, he', hq2, if_true]
        exact ⟨by simp [hr.1], by simp [hr.2]⟩
      | false =>
        have hsv : isSvcUnavailable (strLower e'.msg) = true := by
          rcases hcl with h | h
          · rw [h] at hq2; cases hq2
          · exact h
        have hr := ih (fun i => f (i + 1)) (d0 * fac) (some (strLower e'.msg)) e hn
          hfail' hsh
        simp only [retryAux, he', hq2, hsv, Bool.false_eq_true, if_false, if_true]
        exact ⟨by simp [hr.1], by simp [hr.2]⟩

/-- A first call failing with a non-transient message: no sleep, no
further invocation, the exception re-raised as-is. -/
lemma retryAux_nontransient {α : Type} (fac : ℚ) (n : ℕ) (f : ℕ → Except PyExc α)
    (d0 : ℚ) (last : Option String) (e : PyExc) (hn : 1 ≤ n) (h0 : f 0 = .error e)
    (hq : isRateLimited (strLower e.msg) = false)
    (hs : isSvcUnavailable (strLower e.msg) = false) :
    retryAux fac n f d0 last = ⟨[], 1, .raised e⟩ := by
  obtain ⟨m, rfl⟩ : ∃ m, n = m + 1 := ⟨n - 1, by omega⟩
  simp [retryAux, h0, hq, hs]

/-! ## Claim theorems -/

/-- C1: the claim states that every `Scores` value `score_option`
produces carries an aggregate equal to the local mean
`(profit.raw_score + customer_satisfaction.raw_score +
staff_wellbeing.raw_score) / 3`, never taken from the external output.
On the code, on an external output whose raw scores are all 0 and whose
`combined_score` is 1, the value passed as the aggregate keyword is the
external 1 (not the mean 0), the `Scores` class declares no aggregate
attribute at all, and `score_option` then raises `AttributeError`
formatting `scores.overall_score` — the scorer module cannot even be
imported, since it requests `AlignmentWeights` from the schemas module. -/
theorem C1_aggregate_not_local :
    score_option (.ok c1ScorerOut) =
      .error ⟨"attributeerror: Scores object has no attribute overall_score"⟩ ∧
    overallScoreArg c1ScorerOut = 1 ∧
    ((0 : ℚ) + 0 + 0) / 3 ≠ 1 ∧
    scoresFields.contains "overall_score" = false ∧
    scorerBoot = .error ⟨"importerror: cannot import name AlignmentWeights"⟩ :=
  ⟨rfl, rfl, by norm_num, rfl, rfl⟩

/-- C2: for every planning request and every behaviour of the external
services, `plan_shift` raises — the orchestrator module's import of
`AlignmentWeights` from `src.models.schemas` fails — and the names the
orchestrator relies on (`alignment_weights` on `PlanningRequest`,
`overall_score` on `Scores`, `options_evaluated` and `best_decision` on
`PlanningResponse`) are all absent from the data model, so no invocation
returns a `PlanningResponse`. -/
theorem C2_plan_shift_always_raises (req : PlanningRequest) (o : Oracles) :
    plan_shift req o = .error ⟨"importerror: cannot import name AlignmentWeights"⟩ ∧
    schemasNames.contains "AlignmentWeights" = false ∧
    planningRequestFields.contains "alignment_weights" = false ∧
    scoresFields.contains "overall_score" = false ∧
    planningResponseFields.contains "options_evaluated" = false ∧
    planningResponseFields.contains "best_decision" = false :=
  ⟨rfl, rfl, rfl, rfl, rfl, rfl⟩

/-- C3: every successfully constructed `Staffing` — including from
inputs supplying an arbitrary explicit `total` — has
`total = drive_thru + kitchen + front_counter`: the supplied total is
ignored and recomputed from the three non-negative station counts,
which are stored unchanged. -/
theorem C3_total_recomputed (dt k fc t : Int) (s : Staffing)
    (h : Staffing.validate dt k fc t = .ok s) :
    s.total = s.drive_thru + s.kitchen + s.front_counter ∧
    s.drive_thru = dt ∧ s.kitchen = k ∧ s.front_counter = fc ∧
    s.total = dt + k + fc := by
  simp only [Staffing.validate] at h
  split_ifs at h
  cases h
  exact ⟨rfl, rfl, rfl, rfl, rfl⟩

/-- C3 witness: constructing `Staffing` from counts 2, 3, 1 and the
bogus explicit total 99 succeeds with total 6 = 2 + 3 + 1. -/
theorem C3_total_recomputed_witness :
    Staffing.validate 2 3 1 99 = .ok ⟨2, 3, 1, 6⟩ ∧
    (Staffing.mk 2 3 1 6).total =
      (Staffing.mk 2 3 1 6).drive_thru + (Staffing.mk 2 3 1 6).kitchen +
        (Staffing.mk 2 3 1 6).front_counter :=
  ⟨rfl, (C3_total_recomputed 2 3 1 99 ⟨2, 3, 1, 6⟩ rfl).1⟩

/-- C4 counterexample: a work failing six times with
service-unavailable-class errors under
`retry_llm_call(max_retries=7, initial_delay=2, backoff_factor=2)`
succeeds after six sleeps `[2, 4, 8, 16, 32, 64]` — the sixth sleep is
64, not the capped `min(2 * 2^5, 60) = 60` the claim requires of every
transient retry class. -/
theorem C4_counterexample :
    retry_llm_call 7 2 2 c4SvcWork = ⟨[2, 4, 8, 16, 32, 64], 7, .ok 0⟩ ∧
    isSvcUnavailable (strLower "503 Service Unavailable") = true ∧
    (64 : ℚ) ≠ min (2 * 2 ^ 5) 60 := by
  refine ⟨?_, by decide, by norm_num [min_def]⟩
  have h1 : isRateLimited (strLower "503 Service Unavailable") = false := by decide
  have h2 : isSvcUnavailable (strLower "503 Service Unavailable") = true := by decide
  simp [retry_llm_call, retryAux, c4SvcWork, finalRaise, h1, h2]
  norm_num

/-- C4 (amended): a work failing transiently on the first `k <
max_retries` calls and succeeding on call `k + 1` is returned as a
success after exactly `k` sleeps and `k + 1` invocations; when the
failures are rate-limit-class (and `initial_delay ≤ 60`,
`backoff_factor ≥ 1`) the i-th sleep is
`min(initial_delay * backoff_factor^i, 60)`, while for
service-unavailable-class failures the i-th sleep is the uncapped
`initial_delay * backoff_factor^i` — the 60-second cap applies only to
the rate-limit class. -/
theorem C4_backoff_sleeps {α : Type} (f : ℕ → Except PyExc α) (a : α) (k maxR : ℕ)
    (d0 fac : ℚ) (hk : k < maxR) (hok : f k = .ok a) :
    ((∀ i, i < k → ∃ e, f i = .error e ∧ isRateLimited (strLower e.msg) = true) →
      d0 ≤ 60 → 1 ≤ fac →
      retry_llm_call maxR d0 fac f =
        ⟨(List.range k).map (fun i => min (d0 * fac ^ i) 60), k + 1, .ok a⟩) ∧
    ((∀ i, i < k → ∃ e, f i = .error e ∧ isRateLimited (strLower e.msg) = false ∧
        isSvcUnavailable (strLower e.msg) = true) →
      retry_llm_call maxR d0 fac f =
        ⟨(List.range k).map (fun i => d0 * fac ^ i), k + 1, .ok a⟩) :=
  ⟨fun hfail hd hf => retryAux_quota_ok fac hf k maxR f a d0 none hk hd hfail hok,
   fun hfail => retryAux_svc_ok fac k maxR f a d0 none hk hfail hok⟩

/-- C4 witness: two rate-limit-class failures then success under
`retry_llm_call(3, 2, 2)` give the success after sleeps
`[min(2*2^0, 60), min(2*2^1, 60)]` and three invocations. -/
theorem C4_backoff_sleeps_witness :
    (2 : ℕ) < 3 ∧ c4QuotaWork 2 = .ok 7 ∧
    retry_llm_call 3 2 2 c4QuotaWork =
      ⟨(List.range 2).map (fun i => min ((2 : ℚ) * 2 ^ i) 60), 3, .ok 7⟩ :=
  ⟨by decide, rfl,
   (C4_backoff_sleeps c4QuotaWork 7 2 3 2 2 (by decide) rfl).1
     (fun i hi => ⟨⟨"429 Too Many Requests"⟩, by
        show (if i < 2 then _ else _) = _
        rw [if_pos hi], by decide⟩)
     (by norm_num) (by norm_num)⟩

/-- C5 counterexample: a work always failing with message
"Quota limit reached" is rate-limit-class (the retry loop matches
"quota"), yet after the default two invocations the wrapper raises
`LLMServiceError`, not `LLMQuotaError`, because the final
classification checks only "429" and "resource exhausted". -/
theorem C5_counterexample :
    retry_llm_call 2 2 2 c5QuotaWork = ⟨[2, 4], 2, .svcEx⟩ ∧
    isRateLimited (strLower "Quota limit reached") = true := by
  constructor
  · have h1 : isRateLimited (strLower "Quota limit reached") = true := by decide
    have h2 : isFinalQuota (strLower "Quota limit reached") = false := by decide
    simp [retry_llm_call, retryAux, c5QuotaWork, finalRaise, h1, h2]
    norm_num
  · decide

/-- C5 (amended): a work failing transiently on every call is invoked
exactly `max_retries` times, and the wrapper then raises
`LLMQuotaError` exactly when the last failure's lowercased message
contains "429" or "resource exhausted", otherwise `LLMServiceError`. -/
theorem C5_exhaustion {α : Type} (f : ℕ → Except PyExc α) (maxR : ℕ) (d0 fac : ℚ)
    (h1 : 1 ≤ maxR)
    (hfail : ∀ i, i < maxR → ∃ e, f i = .error e ∧ (isRateLimited (strLower e.msg) = true ∨
      isSvcUnavailable (strLower e.msg) = true)) :
    (retry_llm_call maxR d0 fac f).calls = maxR ∧
    ∀ e, f (maxR - 1) = .error e →
      (retry_llm_call maxR d0 fac f).result =
        (if isFinalQuota (strLower e.msg) then RetryResult.quotaEx else RetryResult.svcEx) := by
  constructor
  · obtain ⟨e, he, _⟩ := hfail (maxR - 1) (by omega)
    exact (retryAux_allfail fac maxR f d0 none e h1 hfail he).1
  · intro e he
    exact (retryAux_allfail fac maxR f d0 none e h1 hfail he).2

/-- C5 witness: a work always failing with "429 Too Many Requests"
under the default `max_retries = 2` is invoked exactly twice and the
wrapper raises `LLMQuotaError`. -/
theorem C5_exhaustion_witness :
    (1 : ℕ) ≤ 2 ∧ (retry_llm_call 2 2 2 c5Work429).calls = 2 ∧
    (retry_llm_call 2 2 2 c5Work429).result = .quotaEx := by
  have h := C5_exhaustion c5Work429 2 2 2 (by decide)
    (fun i _hi => ⟨⟨"429 Too Many Requests"⟩, rfl, Or.inl (by decide)⟩)
  refine ⟨by decide, h.1, ?_⟩
  have h2 := h.2 ⟨"429 Too Many Requests"⟩ rfl
  rw [h2]
  have h3 : isFinalQuota (strLower "429 Too Many Requests") = true := by decide
  rw [h3]
  simp

/-- C6: a work whose first call fails with a non-transient message —
e.g. pydantic's malformed-output validation error — is never retried:
the wrapper performs zero sleeps and no further invocation, and the
original exception propagates as-is. -/
theorem C6_nonretryable {α : Type} (maxR : ℕ) (d0 fac : ℚ) (f : ℕ → Except PyExc α)
    (e : PyExc) (hm : 1 ≤ maxR) (h0 : f 0 = .error e)
    (hq : isRateLimited (strLower e.msg) = false)
    (hs : isSvcUnavailable (strLower e.msg) = false) :
    retry_llm_call maxR d0 fac f = ⟨[], 1, .raised e⟩ :=
  retryAux_nontransient fac maxR f d0 none e hm h0 hq hs

/-- C6 witness: the wrapped `generate_initial_plan` raising pydantic's
validation error for a malformed `StaffingPlan` is surfaced immediately
with zero sleeps and one invocation. -/
theorem C6_nonretryable_witness :
    (1 : ℕ) ≤ 2 ∧
    retry_llm_call 2 2 2 (fun _ : ℕ => generate_initial_plan (.error malformedExc)) =
      ⟨[], 1, .raised malformedExc⟩ :=
  ⟨by decide,
   C6_nonretryable 2 2 2 _ malformedExc (by decide) rfl (by decide) (by decide)⟩

/-- C7: whatever the external-service outcome, each context analyzer
returns a document (never raising to its caller); on any failure the
Demand Analyzer returns its fixed fallback with demand multiplier 1 and
the Capacity Analyzer returns its fixed fallback with the default
station capacities kitchen 80, drive_thru 60, dine_in 50. -/
theorem C7_analyzer_fallback (llmD : Except PyExc DemandPrediction)
    (llmC : Except PyExc CapacityDict) :
    (∃ d, analyze_context llmD = .ok d) ∧
    (∃ c, analyze_capacity llmC = .ok c) ∧
    (∀ e, llmD = .error e → analyze_context llmD = .ok demandFallback) ∧
    (∀ e, llmC = .error e → analyze_capacity llmC = .ok capacityFallback) ∧
    demandFallback.demand_multiplier = 1 ∧
    capacityFallback.station_capacities =
      [("kitchen", 80), ("drive_thru", 60), ("dine_in", 50)] := by
  refine ⟨?_, ?_, ?_, ?_, rfl, rfl⟩
  · cases llmD with
    | ok d => exact ⟨d, rfl⟩
    | error e => exact ⟨demandFallback, rfl⟩
  · cases llmC with
    | ok c => exact ⟨c, rfl⟩
    | error e => exact ⟨capacityFallback, rfl⟩
  · intro e he
    subst he
    rfl
  · intro e he
    subst he
    rfl

/-- C7 witness: on a concrete failing external call both analyzers
return their fixed fallback documents. -/
theorem C7_analyzer_fallback_witness :
    analyze_context (.error ⟨"503 UNAVAILABLE"⟩) = .ok demandFallback ∧
    analyze_capacity (.error ⟨"503 UNAVAILABLE"⟩) = .ok capacityFallback :=
  ⟨(C7_analyzer_fallback (.error ⟨"503 UNAVAILABLE"⟩) (.error ⟨"503 UNAVAILABLE"⟩)).2.2.1
     ⟨"503 UNAVAILABLE"⟩ rfl,
   (C7_analyzer_fallback (.error ⟨"503 UNAVAILABLE"⟩) (.error ⟨"503 UNAVAILABLE"⟩)).2.2.2.1
     ⟨"503 UNAVAILABLE"⟩ rfl⟩

/-- C8: the claim describes the decision loop bound and the returned
iteration trace.  On the code no round ever completes: even with every
external call succeeding with well-formed output, the first round's
scoring raises `AttributeError` on the absent `Scores.overall_score`,
and `plan_shift` on the spec's end-to-end request cannot even start
because the orchestrator module's imports fail. -/
theorem C8_no_round_completes :
    planningLoop benignOracles 0 MAX_ATTEMPTS [] none =
      .error ⟨"attributeerror: Scores object has no attribute overall_score"⟩ ∧
    plan_shift e2eRequest benignOracles =
      .error ⟨"importerror: cannot import name AlignmentWeights"⟩ :=
  ⟨rfl, rfl⟩

/-- C9: the claim describes best-evaluation selection by
strictly-greater comparison with earlier-wins ties.  On the code the
selection `max(evaluations, key=lambda x: x.scores.overall_score)` can
never be evaluated: already on a two-element list of equally-scored
evaluations the key function raises `AttributeError`, because `Scores`
declares no `overall_score`. -/
theorem C9_selection_never_happens :
    pyMax (fun ev => ev.scores.numAttr "overall_score") [benignEval, benignEval2] =
      .error ⟨"attributeerror: Scores object has no attribute overall_score"⟩ ∧
    scoresFields.contains "overall_score" = false :=
  ⟨rfl, rfl⟩

/-- C10 counterexample: the input "Friday" is not one of the seven
lowercase day names, yet `Scenario` construction succeeds (storing the
lowercased "friday") — refuting the claim that any `day_of_week` input
outside the seven lowercase names is rejected. -/
theorem C10_counterexample :
    valid_days.contains "Friday" = false ∧
    Scenario.validate .dinner "2025-01-03" "Friday" .rainy ["friday_rush"] e2eRestaurant =
      .ok ⟨.dinner, "2025-01-03", "friday", .rainy, ["friday_rush"], e2eRestaurant⟩ :=
  ⟨rfl, rfl⟩

/-- C10 (amended): `Scenario` construction succeeds exactly when the
lowercased `day_of_week` input is one of the seven day names — so any
input that does not lowercase to a valid day is rejected by the local
validator (before any external call), any valid input in any case is
accepted, and every constructed `Scenario` stores a `day_of_week`
belonging to the seven-name enumeration. -/
theorem C10_day_validation (sh : ShiftType) (da day : String) (we : WeatherType)
    (ev : List String) (rc : RestaurantConfig) :
    ((Scenario.validate sh da day we ev rc).isOk = true ↔
      valid_days.contains (strLower day) = true) ∧
    (∀ s, Scenario.validate sh da day we ev rc = .ok s →
      valid_days.contains s.day_of_week = true) := by
  simp only [Scenario.validate, validate_day]
  cases h : valid_days.contains (strLower day) with
  | true =>
    refine ⟨by simp [h, Bind.bind, Except.bind, Except.isOk, Except.toBool], ?_⟩
    intro s hs
    simp only [h, if_true, Bind.bind, Except.bind] at hs
    cases hs
    exact h
  | false =>
    refine ⟨by simp [h, Bind.bind, Except.bind, Except.isOk, Except.toBool], ?_⟩
    intro s hs
    simp [h, Bind.bind, Except.bind] at hs

/-- C10 witness: the uppercase input "SATURDAY" lowercases into the
enumeration, and the stored `day_of_week` of a validated scenario is
among the seven names. -/
theorem C10_day_validation_witness :
    valid_days.contains (strLower "SATURDAY") = true ∧
    valid_days.contains "saturday" = true :=
  ⟨(C10_day_validation .dinner "2025-01-03" "SATURDAY" .sunny [] e2eRestaurant).1.mp rfl,
   (C10_day_validation .dinner "2025-01-03" "saturday" .sunny [] e2eRestaurant).2
     ⟨.dinner, "2025-01-03", "saturday", .sunny, [], e2eRestaurant⟩ rfl⟩

end QSR
